import Mathlib

/-!
Verification development for the planx-common repository: a shallow embedding
of the errors, telemetry (tracing, metrics, logging) and logger packages,
with theorems settling the behavioural claims about them.

Machine integers of the source are modelled as Nat or Int (no overflow is
relevant to any statement here); Go interface values that may be nil are
modelled as Option; Go runtime panics are modelled through Except.
-/

namespace Planx

/-! ### The errors package

Model of src errors: the Error struct with message, optional cause and a
captured stack, and the New, Wrap, Wrapf, Error, Unwrap functions.
The struct with a nil Cause and the struct with a non-nil Cause are the two
value shapes a planx Error can take; an arbitrary foreign error value is
visible to this package only through its message string.
-/

/-- A Go error value as the errors package sees it: a foreign error exposing
only its message, a planx Error with no cause (built by New), or a planx
Error wrapping a cause (built by Wrap or Wrapf). The stack field models the
captured program counters; their concrete values are runtime environment
data, so the model only carries the list. -/
inductive ErrVal where
  | foreignErr (msg : String)
  | rootErr (message : String) (stack : List Nat)
  | wrapped (message : String) (cause : ErrVal) (stack : List Nat)
deriving DecidableEq, Repr

/-- Model of captureStack: the program counters recorded at wrap time are
runtime data with no observable content at this level. -/
def captureStack (_skip : Nat) : List Nat := []

/-- Model of the Error method: a wrapped error prints as message, colon,
space, cause (fmt.Sprintf with a percent-s and a percent-v verb); an error
without a cause prints as its message alone. -/
def errorString : ErrVal → String
  | .foreignErr m => m
  | .rootErr m _ => m
  | .wrapped m c _ => m ++ ": " ++ errorString c

/-- Model of the Unwrap method: the underlying cause, nil when absent.
A foreign error is opaque here, so its own unwrapping is not modelled. -/
def Unwrap : ErrVal → Option ErrVal
  | .foreignErr _ => none
  | .rootErr _ _ => none
  | .wrapped _ c _ => some c

/-- errors.New from src: a new error with a stack trace and no cause. -/
def NewErr (message : String) : ErrVal :=
  .rootErr message (captureStack 2)

/-- errors.Wrap from src: nil in, nil out; otherwise a new Error whose
Message is the given message and whose Cause is the wrapped error. -/
def Wrap (err : Option ErrVal) (message : String) : Option ErrVal :=
  match err with
  | none => none
  | some e => some (.wrapped message e (captureStack 2))

/-- Model of the fragment of fmt.Sprintf the errors package uses: each
percent-s, percent-v or percent-d verb consumes the next argument (arguments
already rendered as strings); all other characters pass through. -/
def sprintfChars : List Char → List String → List Char
  | [], _ => []
  | '%' :: c :: rest, a :: args =>
      if c = 's' || c = 'v' || c = 'd' then a.toList ++ sprintfChars rest args
      else '%' :: c :: sprintfChars rest (a :: args)
  | c :: rest, args => c :: sprintfChars rest args

/-- String-level wrapper around the sprintf model. -/
def goSprintf (format : String) (args : List String) : String :=
  String.mk (sprintfChars format.toList args)

/-- errors.Wrapf from src: nil in, nil out; otherwise a new Error whose
Message is the formatted string and whose Cause is the wrapped error. -/
def Wrapf (err : Option ErrVal) (format : String) (args : List String) : Option ErrVal :=
  match err with
  | none => none
  | some e => some (.wrapped (goSprintf format args) e (captureStack 2))

/-- Claim C10: Wrap and Wrapf map a nil error to a nil result; on a non-nil
error they return a non-nil Error whose Unwrap is exactly the wrapped error
and whose Error string is the wrapping message (for Wrapf, the formatted
message), a colon and a space, then the wrapped error's own message. -/
theorem wrap_wrapf_spec :
    (∀ message, Wrap none message = none) ∧
    (∀ format args, Wrapf none format args = none) ∧
    (∀ (e : ErrVal) (message : String), ∃ w : ErrVal,
      Wrap (some e) message = some w ∧
      Unwrap w = some e ∧
      errorString w = message ++ ": " ++ errorString e) ∧
    (∀ (e : ErrVal) (format : String) (args : List String), ∃ w : ErrVal,
      Wrapf (some e) format args = some w ∧
      Unwrap w = some e ∧
      errorString w = goSprintf format args ++ ": " ++ errorString e) := by
  refine ⟨fun _ => rfl, fun _ _ => rfl, ?_, ?_⟩
  · intro e message
    exact ⟨.wrapped message e (captureStack 2), rfl, rfl, rfl⟩
  · intro e format args
    exact ⟨.wrapped (goSprintf format args) e (captureStack 2), rfl, rfl, rfl⟩

/-! ### Telemetry global state

Model of the package-level state of the telemetry package: the tracer
provider, propagator and tracer registered by InitTracing, the once-guarded
meter provider and instrument variables of InitMetrics, the once-guarded
logger provider of InitLogging, and the values accumulated by the counter
instruments. Provider objects are identified by the order of their
construction (field nextProviderId allocates them); span and trace
identifiers are minted by the SDK id generator, modelled by the monotone
counter idGen which never produces 0 (the all-zero invalid id). -/

/-- The attribute set every batch and record counter is tagged with. -/
structure MetricAttrs where
  tenantId : String
  stage : String
  pluginType : String
deriving DecidableEq, Repr

/-- The attribute set of the errors counter. -/
structure ErrorAttrs where
  tenantId : String
  stage : String
  errorType : String
deriving DecidableEq, Repr

/-- The process-wide telemetry state. instrumentsReady records whether the
package-level instrument interface variables are non-nil (they are assigned
exactly when initMetricsInternal runs); tracerReady records whether the
package tracer variable holds the provider tracer installed by InitTracing;
propagatorReady records whether the TraceContext plus Baggage composite
propagator has replaced the default (empty) global propagator. -/
structure OtelState where
  nextProviderId : Nat
  idGen : Nat
  tracerProvider : Option Nat
  propagatorReady : Bool
  tracerReady : Bool
  meterOnceDone : Bool
  meterProvider : Option Nat
  instrumentsReady : Bool
  logOnceDone : Bool
  logProvider : Option Nat
  batchesSent : MetricAttrs → Int
  batchesReceived : MetricAttrs → Int
  recordsSent : MetricAttrs → Int
  recordsReceived : MetricAttrs → Int
  errorsTotal : ErrorAttrs → Int
  stageLatency : List (String × Int)
  ackLatency : List Int
  windowBacklog : String → Int
  sessionsActive : String → Int
  inFlightBatches : Int

/-- The state of a freshly started process: nothing initialized, every
instrument variable nil, the id generator ready to mint nonzero ids. -/
def OtelState.initial : OtelState :=
  { nextProviderId := 0
    idGen := 1
    tracerProvider := none
    propagatorReady := false
    tracerReady := false
    meterOnceDone := false
    meterProvider := none
    instrumentsReady := false
    logOnceDone := false
    logProvider := none
    batchesSent := fun _ => 0
    batchesReceived := fun _ => 0
    recordsSent := fun _ => 0
    recordsReceived := fun _ => 0
    errorsTotal := fun _ => 0
    stageLatency := []
    ackLatency := []
    windowBacklog := fun _ => 0
    sessionsActive := fun _ => 0
    inFlightBatches := 0 }

/-- TracingConfig from src. -/
structure TracingConfig where
  serviceName : String
  endpoint : String
deriving DecidableEq, Repr

/-- MetricsConfig from src (interval in nanoseconds, 0 meaning unset). -/
structure MetricsConfig where
  serviceName : String
  endpoint : String
  interval : Nat
deriving DecidableEq, Repr

/-- LoggingConfig from src. -/
structure LoggingConfig where
  serviceName : String
  endpoint : String
deriving DecidableEq, Repr

/-- InitTracing from src: builds a resource and an exporter (OTLP when an
endpoint is configured, stdout otherwise), constructs a new tracer provider,
registers it process-wide, registers the TraceContext plus Baggage composite
propagator, and stores the provider tracer in the package tracer variable.
The body has no once-guard, so it runs in full on every call. Resource and
exporter construction are external library constructors whose error paths
depend only on the runtime environment; they are modelled as succeeding. -/
def InitTracing (st : OtelState) (_cfg : TracingConfig) : Option ErrVal × OtelState :=
  let pid := st.nextProviderId
  (none,
    { st with
      nextProviderId := pid + 1
      tracerProvider := some pid
      propagatorReady := true
      tracerReady := true })

/-- Body of the metrics once-guard from src: builds the resource, the
exporter and a new meter provider, registers the provider process-wide and
assigns all package-level instrument variables. -/
def initMetricsInternal (st : OtelState) (_cfg : MetricsConfig) : Option ErrVal × OtelState :=
  let pid := st.nextProviderId
  (none,
    { st with
      nextProviderId := pid + 1
      meterProvider := some pid
      instrumentsReady := true })

/-- InitMetrics from src: runs initMetricsInternal under meterOnce.Do. A call
after the once-guard has fired leaves the local err variable at its zero
value, so it returns nil whatever the first call returned. -/
def InitMetrics (st : OtelState) (cfg : MetricsConfig) : Option ErrVal × OtelState :=
  if st.meterOnceDone then (none, st)
  else
    let r := initMetricsInternal st cfg
    (r.1, { r.2 with meterOnceDone := true })

/-- Body of the logging once-guard from src: builds the resource, the
exporter and a new logger provider and registers it process-wide. -/
def initLoggingInternal (st : OtelState) (_cfg : LoggingConfig) : Option ErrVal × OtelState :=
  let pid := st.nextProviderId
  (none,
    { st with
      nextProviderId := pid + 1
      logProvider := some pid })

/-- InitLogging from src: runs initLoggingInternal under loggerOnce.Do, with
the same once semantics as InitMetrics. -/
def InitLogging (st : OtelState) (cfg : LoggingConfig) : Option ErrVal × OtelState :=
  if st.logOnceDone then (none, st)
  else
    let r := initLoggingInternal st cfg
    (r.1, { r.2 with logOnceDone := true })

/-- A concrete tracing configuration used in counterexamples. -/
def tracingCfgA : TracingConfig := { serviceName := "test-service", endpoint := "" }

/-- Claim C1 counterexample: initialization is not idempotent for tracing.
After a first InitTracing call has registered provider 0, a second call with
the same configuration re-runs setup, builds a new provider and registers it
process-wide: the registered tracer provider after the second call differs
from the one after the first, refuting that subsequent calls leave the
already-registered provider in place without re-running setup. -/
theorem initTracing_not_idempotent_cex :
    (InitTracing OtelState.initial tracingCfgA).2.tracerProvider = some 0 ∧
    (InitTracing (InitTracing OtelState.initial tracingCfgA).2 tracingCfgA).2.tracerProvider
      = some 1 ∧
    (InitTracing (InitTracing OtelState.initial tracingCfgA).2 tracingCfgA).2.tracerProvider
      ≠ (InitTracing OtelState.initial tracingCfgA).2.tracerProvider := by
  refine ⟨rfl, rfl, ?_⟩
  decide

/-- Claim C1 (amended): InitMetrics and InitLogging run setup only on the
first call - a call made after the once-guard has fired skips setup, leaves
the state unchanged and returns nil (so it does not re-report a stored error
from the first attempt) - while InitTracing has no once-guard: every call,
whatever its configuration, re-runs setup and registers a freshly built
tracer provider in place of the one already registered. -/
theorem init_once_behaviour :
    (∀ st cfg, st.meterOnceDone = true → InitMetrics st cfg = (none, st)) ∧
    (∀ st cfg, st.meterOnceDone = false →
      (InitMetrics st cfg).2.meterOnceDone = true ∧
      (InitMetrics st cfg).2.instrumentsReady = true) ∧
    (∀ st cfg, st.logOnceDone = true → InitLogging st cfg = (none, st)) ∧
    (∀ st cfg p, st.tracerProvider = some p → p < st.nextProviderId →
      (InitTracing st cfg).2.tracerProvider = some st.nextProviderId ∧
      (InitTracing st cfg).2.tracerProvider ≠ some p) := by
  refine ⟨?_, ?_, ?_, ?_⟩
  · intro st cfg h
    simp [InitMetrics, h]
  · intro st cfg h
    simp [InitMetrics, h, initMetricsInternal]
  · intro st cfg h
    simp [InitLogging, h]
  · intro st cfg p _hp hlt
    refine ⟨rfl, ?_⟩
    simp only [InitTracing, Option.some.injEq, ne_eq]
    omega

/-- A concrete state in which every once-guard has fired and provider 0 is
the registered tracer provider. -/
def doneState : OtelState :=
  { OtelState.initial with
    nextProviderId := 1
    tracerProvider := some 0
    meterOnceDone := true
    logOnceDone := true }

/-- Witness for the amended claim C1 at concrete inputs: the second-call
behaviour of each Init function evaluated on doneState. -/
theorem init_once_behaviour_witness :
    InitMetrics doneState (MetricsConfig.mk "svc" "" 0) = (none, doneState) ∧
    InitLogging doneState (LoggingConfig.mk "svc" "") = (none, doneState) ∧
    (InitTracing doneState tracingCfgA).2.tracerProvider = some doneState.nextProviderId ∧
    (InitTracing doneState tracingCfgA).2.tracerProvider ≠ some 0 :=
  ⟨init_once_behaviour.1 doneState (MetricsConfig.mk "svc" "" 0) rfl,
   init_once_behaviour.2.2.1 doneState (LoggingConfig.mk "svc" "") rfl,
   (init_once_behaviour.2.2.2 doneState tracingCfgA 0 rfl (by decide)).1,
   (init_once_behaviour.2.2.2 doneState tracingCfgA 0 rfl (by decide)).2⟩

/-! ### Metric recorders

Each recorder from src reads a package-level instrument interface variable
and calls a method on it. Before initMetricsInternal has assigned the
variables they are nil interface values, and a Go method call on a nil
interface value is a runtime panic; this outcome is the error case of the
Except result below. -/

/-- A Go runtime fault observable from the recorder functions. -/
inductive GoFault where
  | nilInterfaceCall
deriving DecidableEq, Repr

/-- A W3C-style span context: the trace identity pair. The identifier value
0 models the all-zero invalid identifier, so the HasTraceID and HasSpanID
checks of the source are tests against 0. -/
structure SpanCtx where
  traceId : Nat
  spanId : Nat
deriving DecidableEq, Repr

/-- HasTraceID from the trace API. -/
def SpanCtx.hasTraceId (sc : SpanCtx) : Bool := sc.traceId != 0

/-- HasSpanID from the trace API. -/
def SpanCtx.hasSpanId (sc : SpanCtx) : Bool := sc.spanId != 0

/-- IsValid from the trace API: a valid trace id and a valid span id. -/
def SpanCtx.isValid (sc : SpanCtx) : Bool := sc.hasTraceId && sc.hasSpanId

/-- The per-call context as this layer reads it: the span context of the
current span, if any, plus propagated baggage entries. -/
structure Ctx where
  span : Option SpanCtx
  baggage : List (String × String)
deriving DecidableEq, Repr

/-- context.Background: no span, no baggage. -/
def Ctx.background : Ctx := { span := none, baggage := [] }

/-- trace.SpanFromContext followed by SpanContext: the span context of the
current span, or the invalid (all-zero) span context when the context
carries no span. -/
def Ctx.spanContext (ctx : Ctx) : SpanCtx :=
  match ctx.span with
  | some sc => sc
  | none => { traceId := 0, spanId := 0 }

/-- RecordBatchSent from src: builds the tenant, stage and plugin-type
attribute set and calls Add(1) on batchesSent and Add(recordCount) on
recordsSent. When the instrument variables are still nil the first method
call is a nil-interface dereference. -/
def RecordBatchSent (st : OtelState) (_ctx : Ctx) (tenantID stage pluginType : String)
    (recordCount : Int) : Except GoFault OtelState :=
  if st.instrumentsReady then
    let attrs : MetricAttrs := { tenantId := tenantID, stage := stage, pluginType := pluginType }
    .ok { st with
      batchesSent := fun a => if a = attrs then st.batchesSent a + 1 else st.batchesSent a
      recordsSent := fun a => if a = attrs then st.recordsSent a + recordCount else st.recordsSent a }
  else .error .nilInterfaceCall

/-- RecordBatchReceived from src: the same shape over batchesReceived and
recordsReceived. -/
def RecordBatchReceived (st : OtelState) (_ctx : Ctx) (tenantID stage pluginType : String)
    (recordCount : Int) : Except GoFault OtelState :=
  if st.instrumentsReady then
    let attrs : MetricAttrs := { tenantId := tenantID, stage := stage, pluginType := pluginType }
    .ok { st with
      batchesReceived := fun a => if a = attrs then st.batchesReceived a + 1 else st.batchesReceived a
      recordsReceived := fun a => if a = attrs then st.recordsReceived a + recordCount else st.recordsReceived a }
  else .error .nilInterfaceCall

/-- RecordStageLatency from src: Record on the stage latency histogram,
tagged with the stage. The latency is a float64 in the source; only the
recorded samples matter here, so the value is carried as given. -/
def RecordStageLatency (st : OtelState) (_ctx : Ctx) (stage : String) (latencyMs : Int) :
    Except GoFault OtelState :=
  if st.instrumentsReady then
    .ok { st with stageLatency := st.stageLatency ++ [(stage, latencyMs)] }
  else .error .nilInterfaceCall

/-- RecordAckLatency from src: Record on the ack latency histogram, no
attributes. -/
def RecordAckLatency (st : OtelState) (_ctx : Ctx) (latencyMs : Int) :
    Except GoFault OtelState :=
  if st.instrumentsReady then
    .ok { st with ackLatency := st.ackLatency ++ [latencyMs] }
  else .error .nilInterfaceCall

/-- RecordError from src: Add(1) on the errors counter, tagged with tenant,
stage and error type. -/
def RecordErrorMetric (st : OtelState) (_ctx : Ctx) (tenantID stage errorType : String) :
    Except GoFault OtelState :=
  if st.instrumentsReady then
    let attrs : ErrorAttrs := { tenantId := tenantID, stage := stage, errorType := errorType }
    .ok { st with errorsTotal := fun a => if a = attrs then st.errorsTotal a + 1 else st.errorsTotal a }
  else .error .nilInterfaceCall

/-- UpdateWindowBacklog from src: Add(delta) on the backlog gauge per stage. -/
def UpdateWindowBacklog (st : OtelState) (_ctx : Ctx) (stage : String) (delta : Int) :
    Except GoFault OtelState :=
  if st.instrumentsReady then
    .ok { st with windowBacklog := fun s => if s = stage then st.windowBacklog s + delta else st.windowBacklog s }
  else .error .nilInterfaceCall

/-- UpdateSessionsActive from src: Add(delta) on the sessions gauge per
plugin type. -/
def UpdateSessionsActive (st : OtelState) (_ctx : Ctx) (pluginType : String) (delta : Int) :
    Except GoFault OtelState :=
  if st.instrumentsReady then
    .ok { st with sessionsActive := fun s => if s = pluginType then st.sessionsActive s + delta else st.sessionsActive s }
  else .error .nilInterfaceCall

/-- UpdateInFlightBatches from src: Add(delta) on the process-wide in-flight
gauge. -/
def UpdateInFlightBatches (st : OtelState) (_ctx : Ctx) (delta : Int) :
    Except GoFault OtelState :=
  if st.instrumentsReady then
    .ok { st with inFlightBatches := st.inFlightBatches + delta }
  else .error .nilInterfaceCall

/-- Claim C2 is violated by the code: in the fresh process state, before any
InitMetrics call has assigned the package-level instrument variables, every
recorder call dereferences a nil instrument interface and panics at runtime
instead of silently no-opping and returning to the caller. The test file
states the intended behaviour (a recorder call must not panic even if
metrics are not initialized), so the code contradicts its own test intent. -/
theorem record_before_init_panics :
    RecordBatchSent OtelState.initial Ctx.background "tenant-1" "source" "mysql" 100
      = .error .nilInterfaceCall ∧
    RecordBatchReceived OtelState.initial Ctx.background "tenant-1" "sink" "http" 100
      = .error .nilInterfaceCall ∧
    RecordStageLatency OtelState.initial Ctx.background "processor" 5
      = .error .nilInterfaceCall ∧
    RecordAckLatency OtelState.initial Ctx.background 2
      = .error .nilInterfaceCall ∧
    RecordErrorMetric OtelState.initial Ctx.background "tenant-1" "sink" "connection_refused"
      = .error .nilInterfaceCall ∧
    UpdateWindowBacklog OtelState.initial Ctx.background "processor-1" 5
      = .error .nilInterfaceCall ∧
    UpdateSessionsActive OtelState.initial Ctx.background "source" 1
      = .error .nilInterfaceCall ∧
    UpdateInFlightBatches OtelState.initial Ctx.background 10
      = .error .nilInterfaceCall :=
  ⟨rfl, rfl, rfl, rfl, rfl, rfl, rfl, rfl⟩

/-- Claim C7: once the instruments are registered, RecordBatchSent adds one
to the batches-sent counter and recordCount to the records-sent counter at
exactly the given tenant, stage and plugin-type attribute combination,
leaving every other combination and every other counter unchanged, and
RecordBatchReceived does the same for the received-direction counters. -/
theorem recordBatch_counter_increments (st : OtelState) (ctx : Ctx)
    (t s p : String) (c : Int) (h : st.instrumentsReady = true) :
    (∃ st2, RecordBatchSent st ctx t s p c = .ok st2 ∧
      st2.batchesSent { tenantId := t, stage := s, pluginType := p }
        = st.batchesSent { tenantId := t, stage := s, pluginType := p } + 1 ∧
      st2.recordsSent { tenantId := t, stage := s, pluginType := p }
        = st.recordsSent { tenantId := t, stage := s, pluginType := p } + c ∧
      (∀ a : MetricAttrs, a ≠ { tenantId := t, stage := s, pluginType := p } →
        st2.batchesSent a = st.batchesSent a ∧ st2.recordsSent a = st.recordsSent a) ∧
      st2.batchesReceived = st.batchesReceived ∧
      st2.recordsReceived = st.recordsReceived) ∧
    (∃ st2, RecordBatchReceived st ctx t s p c = .ok st2 ∧
      st2.batchesReceived { tenantId := t, stage := s, pluginType := p }
        = st.batchesReceived { tenantId := t, stage := s, pluginType := p } + 1 ∧
      st2.recordsReceived { tenantId := t, stage := s, pluginType := p }
        = st.recordsReceived { tenantId := t, stage := s, pluginType := p } + c ∧
      (∀ a : MetricAttrs, a ≠ { tenantId := t, stage := s, pluginType := p } →
        st2.batchesReceived a = st.batchesReceived a ∧ st2.recordsReceived a = st.recordsReceived a) ∧
      st2.batchesSent = st.batchesSent ∧
      st2.recordsSent = st.recordsSent) := by
  constructor
  · refine ⟨{ st with
        batchesSent := fun a =>
          if a = { tenantId := t, stage := s, pluginType := p } then st.batchesSent a + 1
          else st.batchesSent a
        recordsSent := fun a =>
          if a = { tenantId := t, stage := s, pluginType := p } then st.recordsSent a + c
          else st.recordsSent a },
      ?_, by simp, by simp, ?_, rfl, rfl⟩
    · rw [RecordBatchSent, h]
      rfl
    · intro a ha
      simp [ha]
  · refine ⟨{ st with
        batchesReceived := fun a =>
          if a = { tenantId := t, stage := s, pluginType := p } then st.batchesReceived a + 1
          else st.batchesReceived a
        recordsReceived := fun a =>
          if a = { tenantId := t, stage := s, pluginType := p } then st.recordsReceived a + c
          else st.recordsReceived a },
      ?_, by simp, by simp, ?_, rfl, rfl⟩
    · rw [RecordBatchReceived, h]
      rfl
    · intro a ha
      simp [ha]

/-- A concrete state whose instruments are registered: the state produced by
a first InitMetrics call on the fresh process state. -/
def metricsReadyState : OtelState :=
  (InitMetrics OtelState.initial (MetricsConfig.mk "test-service" "" 0)).2

/-- Witness for claim C7 at concrete inputs, on the state produced by a real
InitMetrics call. -/
theorem recordBatch_counter_increments_witness :
    metricsReadyState.instrumentsReady = true ∧
    (∃ st2, RecordBatchSent metricsReadyState Ctx.background "t1" "source" "mysql" 100 = .ok st2 ∧
      st2.batchesSent { tenantId := "t1", stage := "source", pluginType := "mysql" }
        = metricsReadyState.batchesSent { tenantId := "t1", stage := "source", pluginType := "mysql" } + 1 ∧
      st2.recordsSent { tenantId := "t1", stage := "source", pluginType := "mysql" }
        = metricsReadyState.recordsSent { tenantId := "t1", stage := "source", pluginType := "mysql" } + 100 ∧
      (∀ a : MetricAttrs, a ≠ { tenantId := "t1", stage := "source", pluginType := "mysql" } →
        st2.batchesSent a = metricsReadyState.batchesSent a ∧
        st2.recordsSent a = metricsReadyState.recordsSent a) ∧
      st2.batchesReceived = metricsReadyState.batchesReceived ∧
      st2.recordsReceived = metricsReadyState.recordsReceived) :=
  ⟨rfl,
   (recordBatch_counter_increments metricsReadyState Ctx.background "t1" "source" "mysql" 100 rfl).1⟩

/-! ### Spans and the tracer

Model of the span values the SDK tracer produces and of the src helpers
StartSpan and RecordSpanError. The SDK id generator is modelled by the
monotone counter idGen: every minted identifier equals the current counter
value, which is never 0, and the counter then advances, so a minted
identifier differs from every identifier minted before (those are below the
counter). -/

/-- Span status per the status codes package: unset (0), error (1) with a
description, ok (2). -/
inductive SpanStatus where
  | unset
  | error (description : String)
  | ok
deriving DecidableEq, Repr

/-- The numeric status code, used by the SDK to refuse downgrades. -/
def SpanStatus.code : SpanStatus → Nat
  | .unset => 0
  | .error _ => 1
  | .ok => 2

/-- An event recorded on a span: its name and the message attribute it
carries. -/
structure SpanEvent where
  name : String
  message : String
deriving DecidableEq, Repr

/-- A span as the SDK keeps it. recording is true for a live SDK span (the
provider samples every span) and false for the noop span handed out before
InitTracing and after End. -/
structure Span where
  name : String
  spanCtx : SpanCtx
  attrs : List (String × String)
  status : SpanStatus
  events : List SpanEvent
  endTime : Option Nat
  recording : Bool
deriving DecidableEq, Repr

/-- Start on the SDK tracer installed by InitTracing (AlwaysSample): with a
valid parent span context the new span keeps the parent trace id and mints a
fresh span id; otherwise it mints a fresh trace id and a fresh span id (a
new root). The returned context carries the new span. -/
def sdkTracerStart (st : OtelState) (ctx : Ctx) (name : String)
    (attrs : List (String × String)) : Ctx × Span × OtelState :=
  let parent := ctx.spanContext
  if parent.isValid then
    let sc : SpanCtx := { traceId := parent.traceId, spanId := st.idGen }
    ({ ctx with span := some sc },
     { name := name, spanCtx := sc, attrs := attrs, status := .unset, events := [],
       endTime := none, recording := true },
     { st with idGen := st.idGen + 1 })
  else
    let sc : SpanCtx := { traceId := st.idGen, spanId := st.idGen + 1 }
    ({ ctx with span := some sc },
     { name := name, spanCtx := sc, attrs := attrs, status := .unset, events := [],
       endTime := none, recording := true },
     { st with idGen := st.idGen + 2 })

/-- Start on the default (noop) tracer in place before InitTracing: the
returned span is non-recording and simply carries the parent span context;
no identifier is minted and the trace identity of the context is unchanged. -/
def noopTracerStart (ctx : Ctx) (name : String) : Ctx × Span :=
  let parent := ctx.spanContext
  let sp : Span := { name := name, spanCtx := parent, attrs := [], status := .unset,
                     events := [], endTime := none, recording := false }
  if parent.isValid then ({ ctx with span := some parent }, sp) else (ctx, sp)

/-- StartSpan from src: Tracer().Start with the given attributes, where
Tracer() is the provider tracer once InitTracing has run and otherwise the
global default (noop) tracer. -/
def StartSpan (st : OtelState) (ctx : Ctx) (name : String)
    (attrs : List (String × String)) : Ctx × Span × OtelState :=
  if st.tracerReady then sdkTracerStart st ctx name attrs
  else
    let r := noopTracerStart ctx name
    (r.1, r.2, st)

/-- Claim C3: with tracing initialized, StartSpan on a context with no trace
identity returns a child context carrying a freshly minted root identity
(valid trace and span ids the generator had not produced before), and on a
context carrying a valid identity T a child context whose identity keeps
T's trace id and whose span id differs from T's. The generator hypotheses
say the generator is in a reachable configuration: its counter is positive
and every previously minted id, in particular T's span id, lies below it. -/
theorem startSpan_identity (st : OtelState) (ctx : Ctx) (name : String)
    (attrs : List (String × String)) (hready : st.tracerReady = true)
    (hgen : 0 < st.idGen) :
    (ctx.span = none →
      ∃ sc : SpanCtx, (StartSpan st ctx name attrs).1.span = some sc ∧
        sc.hasTraceId = true ∧ sc.hasSpanId = true ∧
        st.idGen ≤ sc.traceId ∧ st.idGen ≤ sc.spanId) ∧
    (∀ T : SpanCtx, ctx.span = some T → T.isValid = true → T.spanId < st.idGen →
      ∃ sc : SpanCtx, (StartSpan st ctx name attrs).1.span = some sc ∧
        sc.traceId = T.traceId ∧ sc.spanId ≠ T.spanId) := by
  constructor
  · intro hnone
    refine ⟨{ traceId := st.idGen, spanId := st.idGen + 1 }, ?_, ?_, ?_, le_refl _, Nat.le_succ _⟩
    · simp [StartSpan, hready, sdkTracerStart, Ctx.spanContext, hnone, SpanCtx.isValid,
        SpanCtx.hasTraceId, SpanCtx.hasSpanId]
    · simp [SpanCtx.hasTraceId]
      omega
    · simp [SpanCtx.hasSpanId]
  · intro T hspan hvalid hlt
    have htid : T.traceId ≠ 0 := by
      have := hvalid
      simp [SpanCtx.isValid, SpanCtx.hasTraceId, SpanCtx.hasSpanId] at this
      exact this.1
    refine ⟨{ traceId := T.traceId, spanId := st.idGen }, ?_, rfl, ?_⟩
    · simp [StartSpan, hready, sdkTracerStart, Ctx.spanContext, hspan, hvalid]
    · show st.idGen ≠ T.spanId
      omega

/-- The state left by a first InitTracing call on the fresh process state. -/
def tracerReadyState : OtelState := (InitTracing OtelState.initial tracingCfgA).2

/-- Witness for claim C3 at concrete inputs: a root span started on the
background context after a real InitTracing call. -/
theorem startSpan_identity_witness :
    ∃ sc : SpanCtx,
      (StartSpan tracerReadyState Ctx.background "test-span" []).1.span = some sc ∧
      sc.hasTraceId = true ∧ sc.hasSpanId = true ∧
      tracerReadyState.idGen ≤ sc.traceId ∧ tracerReadyState.idGen ≤ sc.spanId :=
  (startSpan_identity tracerReadyState Ctx.background "test-span" [] rfl
    (by decide)).1 rfl

/-! ### Context propagation

Model of InjectTraceContext and ExtractTraceContext over a flat string-keyed
map carrier. The wire strings of the two standard headers are owned by the
propagation library; their content is modelled structurally by CarrierVal. -/

/-- Lookup in a flat string-keyed map modelled as an association list. -/
def assocGet {α : Type} : List (String × α) → String → Option α
  | [], _ => none
  | kv :: rest, k => if kv.1 = k then some kv.2 else assocGet rest k

/-- Map assignment: the new binding replaces any previous binding of its
key and leaves every other key untouched. -/
def assocSet {α : Type} (l : List (String × α)) (k : String) (v : α) :
    List (String × α) :=
  (k, v) :: l.filter (fun kv => kv.1 != k)

theorem assocGet_set_self {α : Type} (l : List (String × α)) (k : String) (v : α) :
    assocGet (assocSet l k v) k = some v := by
  simp [assocSet, assocGet]

theorem assocGet_filter_ne {α : Type} (l : List (String × α)) (k k2 : String)
    (h : k2 ≠ k) : assocGet (l.filter fun kv => kv.1 != k) k2 = assocGet l k2 := by
  induction l with
  | nil => rfl
  | cons kv rest ih =>
    by_cases hk : kv.1 = k
    · simp only [List.filter_cons]
      have hcond : (kv.1 != k) = false := by simp [hk]
      rw [hcond]
      simp only [Bool.false_eq_true, if_false]
      rw [ih]
      have hne : kv.1 ≠ k2 := by
        rw [hk]
        exact fun he => h he.symm
      simp [assocGet, hne]
    · simp only [List.filter_cons]
      have hcond : (kv.1 != k) = true := by simp [hk]
      rw [hcond]
      simp only [if_true]
      by_cases hk2 : kv.1 = k2
      · simp [assocGet, hk2]
      · simp [assocGet, hk2, ih]

theorem assocGet_set_other {α : Type} (l : List (String × α)) (k k2 : String)
    (v : α) (h : k2 ≠ k) : assocGet (assocSet l k v) k2 = assocGet l k2 := by
  simp only [assocSet, assocGet]
  rw [if_neg (fun he => h he.symm)]
  exact assocGet_filter_ne l k k2 h

theorem assocGet_append {α : Type} (l1 l2 : List (String × α)) (k : String) :
    assocGet (l1 ++ l2) k =
      match assocGet l1 k with
      | some v => some v
      | none => assocGet l2 k := by
  induction l1 with
  | nil => rfl
  | cons kv rest ih =>
    by_cases hk : kv.1 = k <;> simp [assocGet, hk, ih]

/-- The value stored under one carrier key: the traceparent header fields
(version, trace id, span id, sampled flag), the baggage header members, or
any other (unrecognized or malformed) raw string. -/
inductive CarrierVal where
  | traceparent (version : Nat) (traceId : Nat) (spanId : Nat) (sampled : Bool)
  | baggageVal (entries : List (String × String))
  | raw (s : String)
deriving DecidableEq, Repr

/-- The flat string-to-string carrier (propagation.MapCarrier). -/
abbrev Carrier := List (String × CarrierVal)

/-- The W3C TraceContext propagator Inject: for a valid current span context
it writes the traceparent header (version 0, the current identity, sampled
flag true under the always-sampling provider); otherwise it writes nothing. -/
def traceContextInject (ctx : Ctx) (carrier : Carrier) : Carrier :=
  let sc := ctx.spanContext
  if sc.isValid then
    assocSet carrier "traceparent" (.traceparent 0 sc.traceId sc.spanId true)
  else carrier

/-- The W3C TraceContext propagator Extract: a parseable traceparent header
of the supported version with valid (nonzero) identifiers yields a context
carrying that identity as a remote span context; a missing, malformed or
invalid header leaves the context unchanged. -/
def traceContextExtract (ctx : Ctx) (carrier : Carrier) : Ctx :=
  match assocGet carrier "traceparent" with
  | some (.traceparent version tid sid _) =>
      if version = 0 ∧ tid ≠ 0 ∧ sid ≠ 0 then
        { ctx with span := some { traceId := tid, spanId := sid } }
      else ctx
  | _ => ctx

/-- The Baggage propagator Inject: writes the baggage header when the
context carries baggage members, nothing otherwise. -/
def baggageInject (ctx : Ctx) (carrier : Carrier) : Carrier :=
  if ctx.baggage.isEmpty then carrier
  else assocSet carrier "baggage" (.baggageVal ctx.baggage)

/-- The Baggage propagator Extract: a parseable baggage header replaces the
context baggage; a missing or malformed header leaves the context
unchanged. -/
def baggageExtract (ctx : Ctx) (carrier : Carrier) : Ctx :=
  match assocGet carrier "baggage" with
  | some (.baggageVal entries) => { ctx with baggage := entries }
  | _ => ctx

/-- InjectTraceContext from src: Inject of the global propagator on a map
carrier. After InitTracing the global propagator is the TraceContext plus
Baggage composite, whose members inject in registration order; before
InitTracing it is the default (empty) composite, which writes nothing. -/
def InjectTraceContext (st : OtelState) (ctx : Ctx) (carrier : Carrier) : Carrier :=
  if st.propagatorReady then baggageInject ctx (traceContextInject ctx carrier)
  else carrier

/-- ExtractTraceContext from src: Extract of the global propagator on a map
carrier, with the same composite as InjectTraceContext. -/
def ExtractTraceContext (st : OtelState) (ctx : Ctx) (carrier : Carrier) : Ctx :=
  if st.propagatorReady then baggageExtract (traceContextExtract ctx carrier) carrier
  else ctx

/-- Claim C4: with the propagator registered, injecting a context that
carries a valid identity T into an empty carrier and then extracting on a
fresh background context yields a context whose identity has T's trace id. -/
theorem inject_extract_roundtrip (st : OtelState) (ctx : Ctx) (T : SpanCtx)
    (hprop : st.propagatorReady = true) (hspan : ctx.span = some T)
    (hvalid : T.isValid = true) :
    ∃ sc : SpanCtx,
      (ExtractTraceContext st Ctx.background (InjectTraceContext st ctx [])).span
        = some sc ∧
      sc.traceId = T.traceId := by
  have hids : T.traceId ≠ 0 ∧ T.spanId ≠ 0 := by
    simpa [SpanCtx.isValid, SpanCtx.hasTraceId, SpanCtx.hasSpanId] using hvalid
  refine ⟨{ traceId := T.traceId, spanId := T.spanId }, ?_, rfl⟩
  have hinj : InjectTraceContext st ctx [] =
      baggageInject ctx [("traceparent", .traceparent 0 T.traceId T.spanId true)] := by
    simp [InjectTraceContext, hprop, traceContextInject, Ctx.spanContext, hspan, hvalid,
      assocSet]
  rw [hinj]
  by_cases hb : ctx.baggage.isEmpty
  · simp [baggageInject, hb, ExtractTraceContext, hprop, traceContextExtract,
      baggageExtract, assocGet, hids.1, hids.2]
  · simp [baggageInject, hb, ExtractTraceContext, hprop, traceContextExtract,
      baggageExtract, assocSet, assocGet, hids.1, hids.2]

/-- A concrete context carrying the valid identity with trace id 3 and span
id 4. -/
def ctxWithIdentity : Ctx := { span := some { traceId := 3, spanId := 4 }, baggage := [] }

/-- Witness for claim C4 at concrete inputs, in the state left by a real
InitTracing call. -/
theorem inject_extract_roundtrip_witness :
    ∃ sc : SpanCtx,
      (ExtractTraceContext tracerReadyState Ctx.background
        (InjectTraceContext tracerReadyState ctxWithIdentity [])).span = some sc ∧
      sc.traceId = { traceId := 3, spanId := 4 : SpanCtx }.traceId :=
  inject_extract_roundtrip tracerReadyState ctxWithIdentity
    { traceId := 3, spanId := 4 } rfl rfl rfl

/-- Claim C5: extracting from a carrier that binds none of the recognized
propagation keys (traceparent, baggage) - in particular from the empty
carrier - returns the input context itself, so a context without a trace
identity stays identity free. This holds both for the registered composite
propagator and for the default (empty) propagator in place before
InitTracing. -/
theorem extract_unrecognized_id (st : OtelState) (ctx : Ctx) (carrier : Carrier)
    (h1 : assocGet carrier "traceparent" = none)
    (h2 : assocGet carrier "baggage" = none) :
    ExtractTraceContext st ctx carrier = ctx := by
  cases hp : st.propagatorReady
  · simp [ExtractTraceContext, hp]
  · simp [ExtractTraceContext, hp, traceContextExtract, baggageExtract, h1, h2]

/-- Witness for claim C5 at concrete inputs: a carrier holding only an
unrecognized key, extracted on the background context in the fresh process
state. -/
theorem extract_unrecognized_id_witness :
    ExtractTraceContext OtelState.initial Ctx.background
      [("x-request-id", .raw "req-7")] = Ctx.background :=
  extract_unrecognized_id OtelState.initial Ctx.background
    [("x-request-id", .raw "req-7")] rfl rfl

/-! ### Recording an error on a span -/

/-- SetStatus of the SDK span: ignored on a non-recording span; ignored when
the current status code exceeds the new one (an ok status is never
downgraded); otherwise the status is replaced. -/
def spanSetStatus (sp : Span) (status : SpanStatus) : Span :=
  if sp.recording then
    if sp.status.code > status.code then sp
    else { sp with status := status }
  else sp

/-- RecordError of the SDK span: appends an exception event carrying the
error message; ignored on a non-recording span. It never touches the end
time. -/
def spanRecordError (sp : Span) (err : ErrVal) : Span :=
  if sp.recording then
    { sp with events := sp.events ++ [{ name := "exception", message := errorString err }] }
  else sp

/-- RecordSpanError from src: span.RecordError(err) followed by
span.SetStatus with the error code and the error message as description. -/
def RecordSpanError (sp : Span) (err : ErrVal) : Span :=
  spanSetStatus (spanRecordError sp err) (.error (errorString err))

/-- Claim C8: on a live span (one still recording and not already marked ok;
the SDK ignores updates on ended spans and never downgrades an ok status),
RecordSpanError sets the span status to error with the error message as its
description, appends the recorded error as an exception event, and leaves
the span open: the end time is untouched and the span keeps recording, so
it stays usable. -/
theorem recordSpanError_spec (sp : Span) (err : ErrVal)
    (hrec : sp.recording = true) (hok : sp.status ≠ SpanStatus.ok) :
    RecordSpanError sp err =
      { sp with
        status := .error (errorString err)
        events := sp.events ++ [{ name := "exception", message := errorString err }] } ∧
    (RecordSpanError sp err).endTime = sp.endTime ∧
    (RecordSpanError sp err).recording = true := by
  have hmain : RecordSpanError sp err =
      { sp with
        status := .error (errorString err)
        events := sp.events ++ [{ name := "exception", message := errorString err }] } := by
    cases hst : sp.status with
    | unset =>
        simp [RecordSpanError, spanRecordError, spanSetStatus, hrec, hst, SpanStatus.code]
    | error d =>
        simp [RecordSpanError, spanRecordError, spanSetStatus, hrec, hst, SpanStatus.code]
    | ok => exact absurd hst hok
  refine ⟨hmain, ?_, ?_⟩
  · rw [hmain]
  · rw [hmain]
    exact hrec

/-- A concrete live span: the root span started on the background context in
the state left by InitTracing. -/
def liveSpan : Span := (StartSpan tracerReadyState Ctx.background "test-span" []).2.1

/-- Witness for claim C8 at concrete inputs: recording a fresh error on the
concrete live span. -/
theorem recordSpanError_spec_witness :
    RecordSpanError liveSpan (NewErr "boom") =
      { liveSpan with
        status := .error (errorString (NewErr "boom"))
        events := liveSpan.events ++
          [{ name := "exception", message := errorString (NewErr "boom") }] } ∧
    (RecordSpanError liveSpan (NewErr "boom")).endTime = liveSpan.endTime ∧
    (RecordSpanError liveSpan (NewErr "boom")).recording = true :=
  recordSpanError_spec liveSpan (NewErr "boom") rfl (by decide)

/-! ### The logger package

Model of the zerolog-based logger package: the global logger with its
once-guarded Init, the Get accessor, and the context-aware WithContext and
InfoCtx helpers. zerolog levels are int8 values: trace -1, debug 0, info 1,
warn 2, error 3, fatal 4, panic 5, no-level 6, disabled 7; the zero value of
a zerolog Logger therefore carries level 0, the debug level, and zerolog.New
gives a fresh logger the trace level. -/

/-- zerolog.ParseLevel: the recognized level names; none models the error
return for anything else. -/
def parseLevel : String → Option Int
  | "trace" => some (-1)
  | "debug" => some 0
  | "info" => some 1
  | "warn" => some 2
  | "error" => some 3
  | "fatal" => some 4
  | "panic" => some 5
  | "" => some 6
  | "disabled" => some 7
  | _ => none

/-- A zerolog logger as this layer observes it: the accumulated context
fields, the level field, whether a writer is attached and whether the
timestamp hook is installed. -/
structure ZLogger where
  fields : List (String × String)
  level : Int
  hasWriter : Bool
  timestamped : Bool
deriving DecidableEq, Repr

/-- The zero value zerolog Logger: level 0 (the debug level), no writer, no
fields, no timestamp hook. -/
def ZLogger.zero : ZLogger :=
  { fields := [], level := 0, hasWriter := false, timestamped := false }

/-- Config from src logger (the output writer is modelled by whether one is
attached). -/
structure LoggerConfig where
  level : String
  pretty : Bool
  outputSet : Bool
  serviceName : String
deriving DecidableEq, Repr

/-- DefaultConfig from src: level info, not pretty, stdout output, service
name planx. -/
def DefaultConfig : LoggerConfig :=
  { level := "info", pretty := false, outputSet := true, serviceName := "planx" }

/-- The package-level state of the logger package: the global logger
variable, the once-guard, and the zerolog package global level (which
zerolog starts at the trace level). -/
structure LogState where
  globalLogger : ZLogger
  onceDone : Bool
  globalLevel : Int
deriving DecidableEq, Repr

/-- The state of a freshly started process: the zero value global logger,
the once-guard not fired. -/
def LogState.initial : LogState :=
  { globalLogger := ZLogger.zero, onceDone := false, globalLevel := -1 }

/-- Init from src: under the once-guard, parse the configured level (info on
a parse failure), set the zerolog global level, and build the global logger
on the configured output with the timestamp hook and the service field.
zerolog.New assigns the freshly built logger the trace level (-1). -/
def loggerInit (st : LogState) (cfg : LoggerConfig) : LogState :=
  if st.onceDone then st
  else
    { globalLogger :=
        { fields := [("service", cfg.serviceName)]
          level := -1
          hasWriter := cfg.outputSet
          timestamped := true }
      onceDone := true
      globalLevel := (parseLevel cfg.level).getD 1 }

/-- Get from src: when the global logger carries the disabled level (7) it
first initializes with DefaultConfig, then it returns the global logger. -/
def Get (st : LogState) : ZLogger × LogState :=
  if st.globalLogger.level = 7 then
    let st2 := loggerInit st DefaultConfig
    (st2.globalLogger, st2)
  else (st.globalLogger, st)

/-- WithContext from src: resolve the global logger through Get, then append
a trace_id field when the span context of the context has a trace id, and a
span_id field when it has a span id (the field values are the rendered
identifiers). -/
def WithContext (st : LogState) (ctx : Ctx) : ZLogger × LogState :=
  let r := Get st
  let sc := ctx.spanContext
  let l1 :=
    if sc.hasTraceId then
      { r.1 with fields := r.1.fields ++ [("trace_id", toString sc.traceId)] }
    else r.1
  let l2 :=
    if sc.hasSpanId then
      { l1 with fields := l1.fields ++ [("span_id", toString sc.spanId)] }
    else l1
  (l2, r.2)

/-- A structured record emitted through a logger: the level of the event and
the context fields the logger holds at emission time. -/
structure LogRecord where
  level : Int
  fields : List (String × String)
deriving DecidableEq, Repr

/-- InfoCtx from src: an info-level event on the WithContext logger; the
emitted record carries the logger context fields. -/
def InfoCtx (st : LogState) (ctx : Ctx) : LogRecord × LogState :=
  let r := WithContext st ctx
  ({ level := 1, fields := r.1.fields }, r.2)

/-- The logger Get resolves never carries a trace_id or span_id field of its
own, provided the stored global logger does not: the branch that
default-initializes produces a logger whose only field is the service name. -/
theorem get_fields_clean (st : LogState)
    (h1 : assocGet st.globalLogger.fields "trace_id" = none)
    (h2 : assocGet st.globalLogger.fields "span_id" = none) :
    assocGet (Get st).1.fields "trace_id" = none ∧
    assocGet (Get st).1.fields "span_id" = none := by
  rw [Get]
  by_cases hd : st.globalLogger.level = 7
  · rw [if_pos hd]
    by_cases ho : st.onceDone = true
    · simp [loggerInit, ho, h1, h2]
    · have ho2 : st.onceDone = false := by
        cases hb : st.onceDone
        · rfl
        · exact absurd hb ho
      simp [loggerInit, ho2, assocGet]
  · rw [if_neg hd]
    exact ⟨h1, h2⟩

/-- Claim C6: provided the stored global logger carries no trace-correlation
fields of its own (true of the zero value logger and of every logger Init
builds), a record emitted through the context-aware logger carries trace_id
and span_id fields equal to the active span identity exactly when the
context holds an active (valid) trace identity, and carries neither field
when the context holds no span. -/
theorem logRecord_trace_correlation (st : LogState) (ctx : Ctx)
    (hbase1 : assocGet st.globalLogger.fields "trace_id" = none)
    (hbase2 : assocGet st.globalLogger.fields "span_id" = none) :
    (∀ T : SpanCtx, ctx.span = some T → T.isValid = true →
      assocGet (InfoCtx st ctx).1.fields "trace_id" = some (toString T.traceId) ∧
      assocGet (InfoCtx st ctx).1.fields "span_id" = some (toString T.spanId)) ∧
    (ctx.span = none →
      assocGet (InfoCtx st ctx).1.fields "trace_id" = none ∧
      assocGet (InfoCtx st ctx).1.fields "span_id" = none) := by
  obtain ⟨hg1, hg2⟩ := get_fields_clean st hbase1 hbase2
  constructor
  · intro T hspan hvalid
    have hids : T.traceId ≠ 0 ∧ T.spanId ≠ 0 := by
      simpa [SpanCtx.isValid, SpanCtx.hasTraceId, SpanCtx.hasSpanId] using hvalid
    have hfields : (InfoCtx st ctx).1.fields =
        ((Get st).1.fields ++ [("trace_id", toString T.traceId)]) ++
          [("span_id", toString T.spanId)] := by
      simp [InfoCtx, WithContext, Ctx.spanContext, hspan, SpanCtx.hasTraceId,
        SpanCtx.hasSpanId, hids.1, hids.2]
    rw [hfields]
    constructor
    · rw [assocGet_append]
      rw [assocGet_append, hg1]
      simp [assocGet]
    · rw [assocGet_append]
      rw [assocGet_append, hg2]
      simp [assocGet]
  · intro hnone
    have hfields : (InfoCtx st ctx).1.fields = (Get st).1.fields := by
      simp [InfoCtx, WithContext, Ctx.spanContext, hnone, SpanCtx.hasTraceId,
        SpanCtx.hasSpanId]
    rw [hfields]
    exact ⟨hg1, hg2⟩

/-- A concrete context carrying the valid identity with trace id 7 and span
id 9. -/
def ctxForLogging : Ctx := { span := some { traceId := 7, spanId := 9 }, baggage := [] }

/-- Witness for claim C6 at concrete inputs: an info record emitted in the
fresh process state under an active span, carrying its identity. -/
theorem logRecord_trace_correlation_witness :
    assocGet (InfoCtx LogState.initial ctxForLogging).1.fields "trace_id"
      = some (toString (7 : Nat)) ∧
    assocGet (InfoCtx LogState.initial ctxForLogging).1.fields "span_id"
      = some (toString (9 : Nat)) :=
  (logRecord_trace_correlation LogState.initial ctxForLogging rfl rfl).1
    { traceId := 7, spanId := 9 } rfl rfl

/-- Claim C9 is violated by the code: the guard in Get compares the global
logger level against the disabled level (7) to detect a logger that was
never initialized, but the zero value zerolog logger carries level 0 (the
debug level), so in a process that never called Init the guard does not
fire: Get returns the zero value logger - no writer, no service field, not
the baseline configuration - and performs no initialization at all, even
though a default initialization would have changed the state. -/
theorem get_skips_default_init :
    Get LogState.initial = (ZLogger.zero, LogState.initial) ∧
    ZLogger.zero.hasWriter = false ∧
    ZLogger.zero.fields = [] ∧
    (Get LogState.initial).2.onceDone = false ∧
    loggerInit LogState.initial DefaultConfig ≠ LogState.initial := by
  refine ⟨rfl, rfl, rfl, rfl, ?_⟩
  decide

end Planx
